import Mathlib

/-
  Verification of env-typed-guard's schema validator/coercer (`src/defineEnv.ts`,
  current revision: the one using the "[env-typed-guard] " message tag, treating an
  empty raw string as unset, and rethrowing in strict mode).

  Shallow embedding conventions:
  * JS runtime values that can land in the `final` record are `Value`
    (string / number / boolean / undefined).  JS numbers are `JsNum`: NaN,
    signed Infinity, or an exact rational.  `Number(string)` never needs float
    rounding to decide NaN/Infinity/finite, and every concrete value the claims
    touch (0, 42, …) is exactly representable, so `Rat` is used for finite values.
  * Exceptions are `Except String`: `.error msg` is a thrown `Error(msg)`.
  * Console/logger output is modeled structurally: `logEntries` records the
    per-field log templates, `aggregatedError` the final red "Environment
    validation failed" message passed to the logger when `throw` is `false`.
  * `String.prototype.toLowerCase` is modeled on ASCII letters (the comparison
    targets "true"/"false"/"1"/"0" are ASCII).
-/

namespace EnvTypedGuard

/-- A JavaScript number: NaN, ±Infinity, or a finite value (kept exact as `Rat`). -/
inductive JsNum where
  | nan : JsNum
  | inf : Bool → JsNum
  | finite : Rat → JsNum
deriving DecidableEq, Repr

/-- A JS runtime value that can appear in the result record or as a `defaultValue`. -/
inductive Value where
  | str : String → Value
  | num : JsNum → Value
  | bool : Bool → Value
  | undefined : Value
deriving DecidableEq, Repr

/-- Result of a user validator: a boolean, a string, or any other JS value
(`other`), mirroring the runtime checks `=== false` and `typeof === "string"`. -/
inductive ValidateResult where
  | bool : Bool → ValidateResult
  | str : String → ValidateResult
  | other : ValidateResult

/-- One schema entry (`EnvSchemaValueType` of src/types.ts).  `type` is kept as a
raw string since the switch in `parseValue` dispatches on the string tag;
`defaultValue := none` models both an absent key and an explicit `undefined` is
covered by `some Value.undefined`. -/
structure SchemaValue where
  type : String
  defaultValue : Option Value := none
  validValues : Option (List Value) := none
  validate : Option (Value → ValidateResult) := none

/-- `EnvConfigType` of src/types.ts; `none` is an absent (undefined) option. -/
structure EnvConfigType where
  debugMode : Option Bool := none
  throw : Option Bool := none

/-- `config.throw !== false`: the strict (fail-fast) mode test used throughout. -/
def EnvConfigType.throwMode (cfg : EnvConfigType) : Bool :=
  cfg.throw != some false

/-- The message tag `errorPrefix = "[env-typed-guard] "` of defineEnv.ts. -/
def errTag : String := "[env-typed-guard] "

/-- ASCII model of the per-character case mapping of `toLowerCase`. -/
def jsCharToLower (c : Char) : Char :=
  if 65 ≤ c.toNat ∧ c.toNat ≤ 90 then Char.ofNat (c.toNat + 32) else c

/-- ASCII model of `String.prototype.toLowerCase` (characterwise case map). -/
def jsToLower (s : String) : String := ⟨s.data.map jsCharToLower⟩

/-- The WhiteSpace ∪ LineTerminator characters trimmed by JS `Number(string)`. -/
def jsWhitespaceChars : List Char :=
  ['\t', '\n', '\x0b', '\x0c', '\r', ' ', ' ', ' ',
   ' ', ' ', ' ', ' ', ' ', ' ', ' ',
   ' ', ' ', ' ', ' ', ' ', ' ', ' ',
   ' ', '　', '﻿']

def isJsWhitespace (c : Char) : Bool := jsWhitespaceChars.contains c

/-- Value of a nonempty run of decimal digits. -/
def decDigitsToNat (ds : List Char) : Nat :=
  ds.foldl (fun a c => a * 10 + (c.toNat - 48)) 0

/-- Value of one hex digit, if it is one. -/
def hexVal (c : Char) : Option Nat :=
  if c.isDigit then some (c.toNat - 48)
  else if 97 ≤ c.toNat ∧ c.toNat ≤ 102 then some (c.toNat - 87)
  else if 65 ≤ c.toNat ∧ c.toNat ≤ 70 then some (c.toNat - 55)
  else none

/-- Value of a digit run in the given radix; `none` on a digit out of range. -/
def radixDigitsToNat (radix : Nat) (ds : List Char) : Option Nat :=
  ds.foldl
    (fun acc c =>
      acc.bind fun a =>
        match hexVal c with
        | some v => if v < radix then some (a * radix + v) else none
        | none => none)
    (some 0)

/-- Exponent part of a decimal literal: empty, or `(e|E)(+|-)?digits` consuming
the whole remainder; `none` when the remainder is not a valid exponent part. -/
def parseExponent : List Char → Option Int
  | [] => some 0
  | c :: cs =>
    if c = 'e' ∨ c = 'E' then
      let sd : Int × List Char :=
        match cs with
        | '+' :: r => (1, r)
        | '-' :: r => (-1, r)
        | r => (1, r)
      if sd.2 ≠ [] ∧ sd.2.all Char.isDigit then
        some (sd.1 * (decDigitsToNat sd.2 : Int))
      else none
    else none

/-- Exact value of mantissa digits `intDs . fracDs` times `10 ^ exp`. -/
def decToRat (intDs fracDs : List Char) (exp : Int) : Rat :=
  let m : Nat := decDigitsToNat (intDs ++ fracDs)
  let p : Int := exp - fracDs.length
  if 0 ≤ p then mkRat (m * 10 ^ p.toNat) 1
  else mkRat m (10 ^ (-p).toNat)

/-- ECMAScript StrUnsignedDecimalLiteral without the Infinity production:
`digits [. digits] [exp]` or `. digits [exp]`, consuming the whole input. -/
def parseUnsignedDecimal (cs : List Char) : Option Rat :=
  let ir := cs.span Char.isDigit
  match ir.2 with
  | '.' :: rest2 =>
    let fr := rest2.span Char.isDigit
    if ir.1 = [] ∧ fr.1 = [] then none
    else (parseExponent fr.2).map (decToRat ir.1 fr.1)
  | _ =>
    if ir.1 = [] then none
    else (parseExponent ir.2).map (decToRat ir.1 [])

/-- ECMAScript NonDecimalIntegerLiteral: `0x`/`0o`/`0b` digit runs (unsigned). -/
def parseNonDecimal (cs : List Char) : Option Rat :=
  match cs with
  | '0' :: c :: ds =>
    let radix : Option Nat :=
      if c = 'x' ∨ c = 'X' then some 16
      else if c = 'o' ∨ c = 'O' then some 8
      else if c = 'b' ∨ c = 'B' then some 2
      else none
    match radix with
    | some r =>
      if ds = [] then none
      else (radixDigitsToNat r ds).map (fun n => mkRat n 1)
    | none => none
  | _ => none

/-- Strip leading and trailing JS whitespace. -/
def jsTrim (cs : List Char) : List Char :=
  ((cs.dropWhile isJsWhitespace).reverse.dropWhile isJsWhitespace).reverse

/-- ECMAScript `Number(string)` (StringToNumber): trim; empty means 0; otherwise a
hex/octal/binary literal, a signed `Infinity`, or a signed decimal literal; any
other input is NaN.  (Finite values are exact rationals: literal overflow to
Infinity and rounding to float64 are not modeled; no claim depends on them.) -/
def jsStringToNumber (s : String) : JsNum :=
  let t := jsTrim s.data
  if t = [] then .finite 0
  else
    match parseNonDecimal t with
    | some q => .finite q
    | none =>
      let sr : Bool × List Char :=
        match t with
        | '+' :: r => (true, r)
        | '-' :: r => (false, r)
        | r => (true, r)
      if sr.2 = "Infinity".data then .inf sr.1
      else
        match parseUnsignedDecimal sr.2 with
        | some q => .finite (if sr.1 then q else -q)
        | none => .nan

/-- `isNaN` on a JS number. -/
def JsNum.isNaN : JsNum → Bool
  | .nan => true
  | _ => false

/-- JS ToString as used by `Array.prototype.join` on `validValues` and by the log
templates; exact for strings, booleans, NaN, ±Infinity and integral numbers (no
claim depends on the formatting of non-integral numbers). -/
def jsNumToString : JsNum → String
  | .nan => "NaN"
  | .inf true => "Infinity"
  | .inf false => "-Infinity"
  | .finite q => if q.den = 1 then toString q.num else toString q

def valueToString : Value → String
  | .str s => s
  | .num n => jsNumToString n
  | .bool b => if b then "true" else "false"
  | .undefined => "undefined"

/-- The error messages of defineEnv.ts, by template.  (The doubled space after
the tag reproduces the `${errorPrefix} …` templates: `errorPrefix` itself ends
in a space.) -/
def requiredMsg (key : String) : String :=
  errTag ++ " Environment variable \"" ++ key ++ "\" is required but not set"

def enumMissingMsg (key : String) : String :=
  "Enum \"" ++ key ++ "\" missing validValues"

def enumMismatchMsg (key : String) (vv : List Value) : String :=
  errTag ++ " Environment variable \"" ++ key ++ "\" must be one of: " ++
    String.intercalate ", " (vv.map valueToString)

def failedValidationMsg (key : String) : String :=
  errTag ++ " Environment variable \"" ++ key ++ "\" failed validation"

def validationErrorMsg (key : String) (s : String) : String :=
  errTag ++ " Environment variable \"" ++ key ++ "\" validation error: " ++ s

def numberParseMsg (value key : String) : String :=
  errTag ++ " Cannot parse \"" ++ value ++ "\" as number for \"" ++ key ++ "\"."

def boolParseMsg (value key : String) : String :=
  errTag ++ " Cannot parse \"" ++ value ++ "\" as boolean for \"" ++ key ++
    "\". Expected: true, false, 1, or 0"

def unknownTypeMsg (ty key : String) : String :=
  errTag ++ " Unknown type \"" ++ ty ++ "\" for \"" ++ key ++ "\"."

/-- `parseValue` of defineEnv.ts: coerce a set raw string by the declared type.
`.error` is the unconditional `fail(msg)` throw. -/
def parseValue (value : String) (key : String) (sv : SchemaValue) : Except String Value :=
  if sv.type = "string" then .ok (.str value)
  else if sv.type = "number" then
    let num := jsStringToNumber value
    if num.isNaN then .error (numberParseMsg value key)
    else .ok (.num num)
  else if sv.type = "boolean" then
    let lowerValue := jsToLower value
    if lowerValue = "true" ∨ lowerValue = "1" then .ok (.bool true)
    else if lowerValue = "false" ∨ lowerValue = "0" then .ok (.bool false)
    else .error (boolParseMsg value key)
  else .error (unknownTypeMsg sv.type key)

/-- Per-field log lines, kept structurally: `usingDefault k v` is the template
`k=v (using default)`, `success k v` is `k=v`. -/
inductive LogEntry where
  | usingDefault : String → Value → LogEntry
  | success : String → Value → LogEntry
deriving DecidableEq, Repr

/-- The loop's mutable accumulators `final`, `errors`, `logEntries`. -/
structure RunState where
  final : List (String × Value)
  errors : List String
  logEntries : List LogEntry
deriving DecidableEq, Repr

def initState : RunState := ⟨[], [], []⟩

/-- `final[key] = v`: replace the binding if present, else append it. -/
def setKey : List (String × Value) → String → Value → List (String × Value)
  | [], k, v => [(k, v)]
  | (k', v') :: rest, k, v =>
    if k' = k then (k, v) :: rest else (k', v') :: setKey rest k v

/-- `rawValue === undefined || rawValue.length === 0`. -/
def isUnset : Option String → Bool
  | none => true
  | some s => s.length == 0

/-- The unset branch: assign the default (when present and not `undefined`),
else the required-field error — thrown in strict mode, accumulated otherwise
(with `final[key] = undefined`). -/
def handleUnset (cfg : EnvConfigType) (st : RunState) (key : String)
    (sv : SchemaValue) : Except String RunState :=
  let required : Except String RunState :=
    if cfg.throwMode then .error (requiredMsg key)
    else .ok ⟨setKey st.final key .undefined, st.errors ++ [requiredMsg key], st.logEntries⟩
  match sv.defaultValue with
  | some d =>
    if d ≠ Value.undefined then
      .ok ⟨setKey st.final key d, st.errors, st.logEntries ++ [.usingDefault key d]⟩
    else required
  | none => required

/-- The custom-validator check on the just-assigned `final[key]` value, then the
success log entry: the tail of the per-field try block. -/
def runValidator (cfg : EnvConfigType) (st : RunState) (key : String)
    (sv : SchemaValue) (v : Value) : Except String RunState :=
  match sv.validate with
  | none => .ok ⟨st.final, st.errors, st.logEntries ++ [.success key v]⟩
  | some f =>
    match f v with
    | .bool false =>
      if cfg.throwMode then .error (failedValidationMsg key)
      else .ok ⟨setKey st.final key .undefined,
                st.errors ++ [failedValidationMsg key], st.logEntries⟩
    | .str s =>
      if cfg.throwMode then .error (validationErrorMsg key s)
      else .ok ⟨setKey st.final key .undefined,
                st.errors ++ [validationErrorMsg key s], st.logEntries⟩
    | _ => .ok ⟨st.final, st.errors, st.logEntries ++ [.success key v]⟩

/-- The set branch: enum membership (the missing-`validValues` throw is
unconditional) or `parseValue` coercion, then the validator check. -/
def handleSet (cfg : EnvConfigType) (st : RunState) (key : String)
    (sv : SchemaValue) (raw : String) : Except String RunState :=
  if sv.type = "enum" then
    match sv.validValues with
    | none => .error (enumMissingMsg key)
    | some vv =>
      if vv.contains (Value.str raw) then
        runValidator cfg ⟨setKey st.final key (.str raw), st.errors, st.logEntries⟩
          key sv (.str raw)
      else
        if cfg.throwMode then .error (enumMismatchMsg key vv)
        else .ok ⟨setKey st.final key .undefined,
                  st.errors ++ [enumMismatchMsg key vv], st.logEntries⟩
  else
    match parseValue raw key sv with
    | .error m => .error m
    | .ok v =>
      runValidator cfg ⟨setKey st.final key v, st.errors, st.logEntries⟩ key sv v

/-- The body of the per-field `try` block; `.error msg` is an exception reaching
the catch. -/
def tryBody (cfg : EnvConfigType) (rawOpt : Option String) (st : RunState)
    (key : String) (sv : SchemaValue) : Except String RunState :=
  match rawOpt with
  | none => handleUnset cfg st key sv
  | some raw =>
    if raw.length == 0 then handleUnset cfg st key sv
    else handleSet cfg st key sv raw

/-- One iteration of the loop over schema entries: the try body plus the catch
(`errors.push(message)`, then rethrow in strict mode).  In accumulate mode no
exception reaches the catch after `final` was touched in the same iteration, so
`final`/`logEntries` are those from before the field. -/
def processField (cfg : EnvConfigType) (env : String → Option String)
    (st : RunState) (key : String) (sv : SchemaValue) : Except String RunState :=
  match tryBody cfg (env key) st key sv with
  | .ok st' => .ok st'
  | .error msg =>
    if cfg.throwMode then .error msg
    else .ok ⟨st.final, st.errors ++ [msg], st.logEntries⟩

/-- The loop over `Object.entries(schema)`. -/
def runFields (cfg : EnvConfigType) (env : String → Option String) :
    List (String × SchemaValue) → RunState → Except String RunState
  | [], st => .ok st
  | (key, sv) :: rest, st =>
    match processField cfg env st key sv with
    | .error m => .error m
    | .ok st' => runFields cfg env rest st'

/-- The post-loop aggregated message `Environment validation failed:\n  • …`. -/
def aggregatedMsg (errors : List String) : String :=
  "Environment validation failed:\n" ++
    String.intercalate "\n" (errors.map (fun e => "  • " ++ e))

/-- The observable outcome of one `defineEnv` run: the returned record, the
accumulated errors and log entries, and the aggregated failure message emitted
(via `logger.red`) when `throw` is `false` and errors were accumulated. -/
structure EnvResult where
  final : List (String × Value)
  errors : List String
  logEntries : List LogEntry
  aggregatedError : Option String
deriving DecidableEq, Repr

/-- `defineEnv(schema, config)` over an environment snapshot `env`
(`process.env` lookup).  `.error msg` is a thrown `Error(msg)`. -/
def defineEnv (schema : List (String × SchemaValue)) (env : String → Option String)
    (cfg : EnvConfigType) : Except String EnvResult :=
  match runFields cfg env schema initState with
  | .error m => .error m
  | .ok st =>
    if st.errors = [] then .ok ⟨st.final, st.errors, st.logEntries, none⟩
    else if cfg.throwMode then .error (aggregatedMsg st.errors)
    else .ok ⟨st.final, st.errors, st.logEntries, some (aggregatedMsg st.errors)⟩

/-! ## Shared lemmas -/

theorem strAppend_assoc (a b c : String) : a ++ b ++ c = a ++ (b ++ c) := by
  cases a; cases b; cases c
  show String.mk _ = String.mk _
  simp [String.append]

theorem length_beq_zero_false (s : String) (h : s ≠ "") : (s.length == 0) = false := by
  cases s with
  | mk d =>
    cases d with
    | nil => exact absurd rfl h
    | cons c cs => simp [String.length]

theorem runFields_append (cfg : EnvConfigType) (env : String → Option String)
    (s₁ s₂ : List (String × SchemaValue)) (st : RunState) :
    runFields cfg env (s₁ ++ s₂) st =
      match runFields cfg env s₁ st with
      | .error m => .error m
      | .ok st' => runFields cfg env s₂ st' := by
  induction s₁ generalizing st with
  | nil => simp [runFields]
  | cons f rest ih =>
    obtain ⟨key, sv⟩ := f
    simp only [List.cons_append, runFields]
    cases processField cfg env st key sv with
    | error m => rfl
    | ok st' => exact ih st'

theorem processField_ok_of_accumulate (cfg : EnvConfigType)
    (env : String → Option String) (st : RunState) (key : String) (sv : SchemaValue)
    (h : cfg.throwMode = false) :
    ∃ st', processField cfg env st key sv = .ok st' := by
  unfold processField
  cases tryBody cfg (env key) st key sv with
  | ok st' => exact ⟨st', rfl⟩
  | error m => rw [h]; exact ⟨_, rfl⟩

theorem runFields_ok_of_accumulate (cfg : EnvConfigType)
    (env : String → Option String) (h : cfg.throwMode = false) :
    ∀ (schema : List (String × SchemaValue)) (st : RunState),
      ∃ st', runFields cfg env schema st = .ok st' := by
  intro schema
  induction schema with
  | nil => exact fun st => ⟨st, rfl⟩
  | cons f rest ih =>
    intro st
    obtain ⟨key, sv⟩ := f
    obtain ⟨st₁, h₁⟩ := processField_ok_of_accumulate cfg env st key sv h
    obtain ⟨st₂, h₂⟩ := ih st₁
    exact ⟨st₂, by simp [runFields, h₁, h₂]⟩

theorem lookup_setKey (m : List (String × Value)) (k : String) (v : Value) :
    List.lookup k (setKey m k v) = some v := by
  induction m with
  | nil => simp [setKey, List.lookup]
  | cons p rest ih =>
    obtain ⟨k', v'⟩ := p
    by_cases hk : k' = k
    · simp [setKey, hk, List.lookup]
    · have hb : (k == k') = false := beq_eq_false_iff_ne.mpr (Ne.symm hk)
      simp [setKey, hk, List.lookup, hb, ih]

theorem jsTrim_eq_nil (cs : List Char) (h : ∀ c ∈ cs, isJsWhitespace c) :
    jsTrim cs = [] := by
  unfold jsTrim
  rw [List.dropWhile_eq_nil_iff.mpr h]
  simp

theorem jsStringToNumber_whitespace (s : String) (h : ∀ c ∈ s.data, isJsWhitespace c) :
    jsStringToNumber s = .finite 0 := by
  unfold jsStringToNumber
  rw [jsTrim_eq_nil s.data h]
  simp

theorem tryBody_some_ne (cfg : EnvConfigType) (st : RunState) (key : String)
    (sv : SchemaValue) (raw : String) (h : raw ≠ "") :
    tryBody cfg (some raw) st key sv = handleSet cfg st key sv raw := by
  simp [tryBody, length_beq_zero_false raw h]

/-! ## Claims -/

/-- C1: with `throw` not set to `false` (the fail-fast default), the first
per-field error of any kind aborts the whole run with exactly that single
error: the outcome does not depend on the schema fields after the failing one
(they are never processed, so their validators are never invoked), and no
partial result record is returned. -/
theorem failFast_first_error (cfg : EnvConfigType) (env : String → Option String)
    (pre post : List (String × SchemaValue)) (key : String) (sv : SchemaValue)
    (st : RunState) (m : String)
    (_hthrow : cfg.throwMode = true)
    (hpre : runFields cfg env pre initState = .ok st)
    (hfail : processField cfg env st key sv = .error m) :
    defineEnv (pre ++ (key, sv) :: post) env cfg = .error m := by
  unfold defineEnv
  rw [runFields_append, hpre]
  simp [runFields, hfail]

theorem failFast_first_error_witness :
    defineEnv ([] ++ ("A", ⟨"string", none, none, none⟩) ::
        [("B", ⟨"string", none, none, none⟩)]) (fun _ => none) {} =
      .error (requiredMsg "A") :=
  failFast_first_error {} (fun _ => none) [] [("B", ⟨"string", none, none, none⟩)]
    "A" ⟨"string", none, none, none⟩ initState (requiredMsg "A") rfl rfl rfl

/-- C9: two `defineEnv` runs with identical schema, identical environment
snapshot, and identical config produce identical outcomes — the run is a pure
function of its inputs, with no hidden mutable state across calls. -/
theorem defineEnv_deterministic (s₁ s₂ : List (String × SchemaValue))
    (e₁ e₂ : String → Option String) (c₁ c₂ : EnvConfigType)
    (hs : s₁ = s₂) (he : e₁ = e₂) (hc : c₁ = c₂) :
    defineEnv s₁ e₁ c₁ = defineEnv s₂ e₂ c₂ := by
  rw [hs, he, hc]

theorem defineEnv_deterministic_witness :
    defineEnv [("PORT", ⟨"number", some (.num (.finite 3000)), none, none⟩)]
      (fun k => if k = "PORT" then some "8080" else none) {} =
    defineEnv [("PORT", ⟨"number", some (.num (.finite 3000)), none, none⟩)]
      (fun k => if k = "PORT" then some "8080" else none) {} :=
  defineEnv_deterministic _ _ _ _ _ _ rfl rfl rfl

/-- C7: a field with default `d` and no raw environment entry resolves to
exactly `d` — no coercion touches the default — and a "using default" log entry
is recorded; looking the field up in the produced record yields `d`. -/
theorem default_roundtrip (cfg : EnvConfigType) (env : String → Option String)
    (st : RunState) (key : String) (sv : SchemaValue) (d : Value)
    (hd : sv.defaultValue = some d) (hnu : d ≠ Value.undefined)
    (hu : env key = none) :
    processField cfg env st key sv =
      .ok ⟨setKey st.final key d, st.errors, st.logEntries ++ [.usingDefault key d]⟩ ∧
    List.lookup key (setKey st.final key d) = some d := by
  constructor
  · simp [processField, tryBody, hu, handleUnset, hd, hnu]
  · exact lookup_setKey st.final key d

theorem default_roundtrip_witness :
    (processField {} (fun _ => none) initState "PORT"
        ⟨"number", some (.num (.finite 3000)), none, none⟩ =
      .ok ⟨setKey initState.final "PORT" (.num (.finite 3000)), initState.errors,
           initState.logEntries ++ [.usingDefault "PORT" (.num (.finite 3000))]⟩) ∧
    List.lookup "PORT" (setKey initState.final "PORT" (.num (.finite 3000))) =
      some (.num (.finite 3000)) :=
  default_roundtrip {} (fun _ => none) initState "PORT"
    ⟨"number", some (.num (.finite 3000)), none, none⟩ (.num (.finite 3000))
    rfl (by decide) rfl

/-- C2 counterexample: a validator that rejects every value, on a field that
resolves from its default `"ab"` (raw value unset), is never invoked — the run
succeeds with the default and no ValidationFailed error, even in fail-fast
mode. -/
theorem validator_skipped_for_default_cex :
    defineEnv [("K", ⟨"string", some (.str "ab"), none,
        some (fun _ => ValidateResult.str "too short")⟩)] (fun _ => none) {} =
      .ok ⟨[("K", .str "ab")], [], [.usingDefault "K" (.str "ab")], none⟩ ∧
    (fun _ => ValidateResult.str "too short") (Value.str "ab") =
      ValidateResult.str "too short" :=
  ⟨rfl, rfl⟩

/-- C2 amended: the validator is invoked with the coerced value on the set
paths — a coerced value it rejects produces the validation error — but a field
resolved from `defaultValue` bypasses the validator entirely (the default
branch `continue`s before the validator check) and the default is accepted. -/
theorem validator_coerced_not_default (cfg : EnvConfigType)
    (env : String → Option String) (st : RunState) (key : String)
    (sv : SchemaValue) (f : Value → ValidateResult)
    (hf : sv.validate = some f) :
    (∀ raw v s, env key = some raw → raw ≠ "" → sv.type ≠ "enum" →
      parseValue raw key sv = .ok v → f v = .str s →
      processField cfg env st key sv =
        if cfg.throwMode then .error (validationErrorMsg key s)
        else .ok ⟨setKey (setKey st.final key v) key .undefined,
                  st.errors ++ [validationErrorMsg key s], st.logEntries⟩) ∧
    (∀ d, env key = none → sv.defaultValue = some d → d ≠ Value.undefined →
      processField cfg env st key sv =
        .ok ⟨setKey st.final key d, st.errors, st.logEntries ++ [.usingDefault key d]⟩) := by
  constructor
  · intro raw v s hr hne hte hp hfv
    have hb := length_beq_zero_false raw hne
    cases hc : cfg.throwMode <;>
      simp [processField, tryBody, hr, hb, handleSet, hte, hp, runValidator, hf, hfv, hc]
  · intro d hr hd hnu
    simp [processField, tryBody, hr, handleUnset, hd, hnu]

theorem validator_coerced_not_default_witness :
    processField {} (fun _ => some "ab") initState "K"
        ⟨"string", none, none, some (fun _ => ValidateResult.str "too short")⟩ =
      .error (validationErrorMsg "K" "too short") := by
  have h := (validator_coerced_not_default {} (fun _ => some "ab") initState "K"
      ⟨"string", none, none, some (fun _ => ValidateResult.str "too short")⟩
      (fun _ => ValidateResult.str "too short") rfl).1 "ab" (.str "ab") "too short"
      rfl (by decide) (by decide) rfl rfl
  rw [h]; rfl

/-- C3: a raw value equal to the empty string is treated exactly like an absent
key: the per-field outcome is the same as with no entry at all, the default is
used when one is defined, and a required-field error ("is required but not
set") arises when none is — the empty string is never passed to coercion. -/
theorem emptyString_unset (cfg : EnvConfigType) (env : String → Option String)
    (st : RunState) (key : String) (sv : SchemaValue)
    (h : env key = some "") :
    processField cfg env st key sv = processField cfg (fun _ => none) st key sv ∧
    (∀ d, sv.defaultValue = some d → d ≠ Value.undefined →
      processField cfg env st key sv =
        .ok ⟨setKey st.final key d, st.errors, st.logEntries ++ [.usingDefault key d]⟩) ∧
    (sv.defaultValue = none →
      processField cfg env st key sv =
        if cfg.throwMode then .error (requiredMsg key)
        else .ok ⟨setKey st.final key .undefined,
                  st.errors ++ [requiredMsg key], st.logEntries⟩) := by
  refine ⟨?_, ?_, ?_⟩
  · simp [processField, tryBody, h]
  · intro d hd hnu
    simp [processField, tryBody, h, handleUnset, hd, hnu]
  · intro hd
    cases hc : cfg.throwMode <;>
      simp [processField, tryBody, h, handleUnset, hd, hc]

theorem emptyString_unset_witness :
    processField {} (fun _ => some "") initState "K"
        ⟨"string", some (.str "fallback"), none, none⟩ =
      .ok ⟨setKey initState.final "K" (.str "fallback"), initState.errors,
           initState.logEntries ++ [.usingDefault "K" (.str "fallback")]⟩ :=
  (emptyString_unset {} (fun _ => some "") initState "K"
    ⟨"string", some (.str "fallback"), none, none⟩ rfl).2.1 _ rfl (by decide)

/-- C4 counterexample: with `throw: false`, an enum field that omits
`validValues` does not fail the run unconditionally — the unconditionally
thrown SchemaError is caught by the per-field catch, accumulated as an
ordinary per-field error, and a result is returned. -/
theorem enum_missing_accumulated_cex :
    defineEnv [("E", ⟨"enum", none, none, none⟩)] (fun _ => some "prod")
        ⟨none, some false⟩ =
      .ok ⟨[], [enumMissingMsg "E"], [], some (aggregatedMsg [enumMissingMsg "E"])⟩ :=
  rfl

/-- C4 amended: the missing-`validValues` error is thrown unconditionally
inside the field body, so with `throw` not `false` it aborts the run; but with
`throw: false` the per-field catch converts it into an accumulated ordinary
error and processing continues with a returned result. -/
theorem enum_missing_validValues (cfg : EnvConfigType)
    (env : String → Option String) (st : RunState) (key : String)
    (sv : SchemaValue) (raw : String)
    (ht : sv.type = "enum") (hv : sv.validValues = none)
    (hr : env key = some raw) (hne : raw ≠ "") :
    processField cfg env st key sv =
      if cfg.throwMode then .error (enumMissingMsg key)
      else .ok ⟨st.final, st.errors ++ [enumMissingMsg key], st.logEntries⟩ := by
  have hb := length_beq_zero_false raw hne
  cases hc : cfg.throwMode <;>
    simp [processField, tryBody, hr, hb, handleSet, ht, hv, hc]

theorem enum_missing_validValues_witness :
    processField ⟨none, some false⟩ (fun _ => some "prod") initState "E"
        ⟨"enum", none, none, none⟩ =
      .ok ⟨initState.final, initState.errors ++ [enumMissingMsg "E"],
           initState.logEntries⟩ := by
  have h := enum_missing_validValues ⟨none, some false⟩ (fun _ => some "prod")
    initState "E" ⟨"enum", none, none, none⟩ "prod" rfl rfl rfl (by decide)
  rw [h]; rfl

theorem numberParseMsg_decomp (raw key : String) :
    numberParseMsg raw key =
      (errTag ++ " ") ++ (("Cannot parse \"" ++ (raw ++ "\" as number")) ++
        (" for \"" ++ (key ++ "\"."))) := by
  unfold numberParseMsg errTag
  cases raw; cases key
  show String.mk _ = String.mk _
  simp [String.append]

/-- C5 counterexample: raw `"Infinity"` does not represent a finite number, yet
a number field accepts it — the coercion only rejects NaN, so the run succeeds
with the non-finite typed value Infinity instead of raising an InvalidType
error. -/
theorem number_infinity_accepted_cex :
    defineEnv [("N", ⟨"number", none, none, none⟩)] (fun _ => some "Infinity") {} =
      .ok ⟨[("N", .num (.inf true))], [], [.success "N" (.num (.inf true))], none⟩ :=
  rfl

/-- C5 amended: a set number field fails exactly when `Number(raw)` is NaN —
with an error message containing `Cannot parse "<raw>" as number` — while any
non-NaN conversion result, finite or ±Infinity, is accepted as the typed
value. -/
theorem number_coercion (raw key : String) (sv : SchemaValue)
    (ht : sv.type = "number") :
    (∀ q, jsStringToNumber raw = .finite q →
      parseValue raw key sv = .ok (.num (.finite q))) ∧
    (∀ p, jsStringToNumber raw = .inf p →
      parseValue raw key sv = .ok (.num (.inf p))) ∧
    (jsStringToNumber raw = .nan →
      parseValue raw key sv = .error (numberParseMsg raw key) ∧
      ∃ a b, numberParseMsg raw key =
        a ++ (("Cannot parse \"" ++ (raw ++ "\" as number")) ++ b)) := by
  refine ⟨?_, ?_, ?_⟩
  · intro q hq
    simp [parseValue, ht, hq, JsNum.isNaN]
  · intro p hp
    simp [parseValue, ht, hp, JsNum.isNaN]
  · intro hn
    exact ⟨by simp [parseValue, ht, hn, JsNum.isNaN],
      errTag ++ " ", " for \"" ++ (key ++ "\"."), numberParseMsg_decomp raw key⟩

theorem number_coercion_witness :
    parseValue "42" "PORT" ⟨"number", none, none, none⟩ =
      .ok (.num (.finite 42)) ∧
    parseValue "not-a-number" "PORT" ⟨"number", none, none, none⟩ =
      .error (numberParseMsg "not-a-number" "PORT") :=
  ⟨(number_coercion "42" "PORT" ⟨"number", none, none, none⟩ rfl).1 42 (by decide),
   ((number_coercion "not-a-number" "PORT" ⟨"number", none, none, none⟩ rfl).2.2
     (by decide)).1⟩

/-- C6: with `throw: false`, no field aborts the run — any prefix of the schema
completes and processing continues through the remaining fields, so every field
is attempted — the returned record is the state accumulated over all fields,
and when at least one error accumulated the emitted aggregated failure message
lists every individual message in field-encounter order. -/
theorem accumulate_mode (schema : List (String × SchemaValue))
    (env : String → Option String) (cfg : EnvConfigType)
    (h : cfg.throw = some false) :
    ∃ st : RunState,
      runFields cfg env schema initState = .ok st ∧
      (∀ s₁ s₂, schema = s₁ ++ s₂ →
        ∃ st₁, runFields cfg env s₁ initState = .ok st₁ ∧
               runFields cfg env s₂ st₁ = .ok st) ∧
      defineEnv schema env cfg =
        .ok ⟨st.final, st.errors, st.logEntries,
             if st.errors = [] then none else some (aggregatedMsg st.errors)⟩ := by
  have hm : cfg.throwMode = false := by
    simp [EnvConfigType.throwMode, h]
  obtain ⟨st, hst⟩ := runFields_ok_of_accumulate cfg env hm schema initState
  refine ⟨st, hst, ?_, ?_⟩
  · intro s₁ s₂ hsch
    subst hsch
    rw [runFields_append] at hst
    cases h₁ : runFields cfg env s₁ initState with
    | error m => rw [h₁] at hst; exact absurd hst (by simp)
    | ok st₁ => rw [h₁] at hst; exact ⟨st₁, rfl, hst⟩
  · unfold defineEnv
    rw [hst]
    by_cases he : st.errors = []
    · simp [he]
    · simp [he, hm]

theorem accumulate_mode_witness :
    (defineEnv
        [("A", ⟨"number", none, none, none⟩), ("B", ⟨"string", none, none, none⟩),
         ("C", ⟨"string", none, none, none⟩)]
        (fun k => if k = "A" then some "xx" else if k = "C" then some "ok" else none)
        ⟨none, some false⟩ =
      .ok ⟨[("B", .undefined), ("C", .str "ok")],
           [numberParseMsg "xx" "A", requiredMsg "B"],
           [.success "C" (.str "ok")],
           some (aggregatedMsg [numberParseMsg "xx" "A", requiredMsg "B"])⟩) ∧
    (∃ st : RunState,
      runFields ⟨none, some false⟩
          (fun k => if k = "A" then some "xx" else if k = "C" then some "ok" else none)
          [("A", ⟨"number", none, none, none⟩), ("B", ⟨"string", none, none, none⟩),
           ("C", ⟨"string", none, none, none⟩)] initState = .ok st ∧
      (∀ s₁ s₂,
        [("A", (⟨"number", none, none, none⟩ : SchemaValue)),
         ("B", ⟨"string", none, none, none⟩), ("C", ⟨"string", none, none, none⟩)] =
          s₁ ++ s₂ →
        ∃ st₁, runFields ⟨none, some false⟩
            (fun k => if k = "A" then some "xx" else if k = "C" then some "ok" else none)
            s₁ initState = .ok st₁ ∧
          runFields ⟨none, some false⟩
            (fun k => if k = "A" then some "xx" else if k = "C" then some "ok" else none)
            s₂ st₁ = .ok st) ∧
      defineEnv
          [("A", ⟨"number", none, none, none⟩), ("B", ⟨"string", none, none, none⟩),
           ("C", ⟨"string", none, none, none⟩)]
          (fun k => if k = "A" then some "xx" else if k = "C" then some "ok" else none)
          ⟨none, some false⟩ =
        .ok ⟨st.final, st.errors, st.logEntries,
             if st.errors = [] then none else some (aggregatedMsg st.errors)⟩) :=
  ⟨rfl, accumulate_mode _ _ _ rfl⟩

theorem boolParseMsg_decomp (raw key : String) :
    boolParseMsg raw key =
      (errTag ++ " ") ++ (("Cannot parse \"" ++ (raw ++ "\" as boolean")) ++
        ((" for \"" ++ (key ++ "\". ")) ++ "Expected: true, false, 1, or 0")) := by
  unfold boolParseMsg errTag
  cases raw; cases key
  show String.mk _ = String.mk _
  simp [String.append]

theorem boolParseMsg_decomp2 (raw key : String) :
    boolParseMsg raw key =
      (errTag ++ (" Cannot parse \"" ++ (raw ++ ("\" as boolean for \"" ++
        (key ++ "\". "))))) ++ "Expected: true, false, 1, or 0" := by
  unfold boolParseMsg errTag
  cases raw; cases key
  show String.mk _ = String.mk _
  simp [String.append]

/-- C8: boolean coercion is case-insensitive — a raw text whose lowercasing is
"true" or "1" yields `true`, "false" or "0" yields `false` — and any other raw
text fails with a message containing `Cannot parse "<raw>" as boolean` and
`Expected: true, false, 1, or 0`. -/
theorem boolean_coercion (raw key : String) (sv : SchemaValue)
    (ht : sv.type = "boolean") :
    ((jsToLower raw = "true" ∨ jsToLower raw = "1") →
      parseValue raw key sv = .ok (.bool true)) ∧
    ((jsToLower raw = "false" ∨ jsToLower raw = "0") →
      parseValue raw key sv = .ok (.bool false)) ∧
    ((jsToLower raw ≠ "true" ∧ jsToLower raw ≠ "1" ∧ jsToLower raw ≠ "false" ∧
        jsToLower raw ≠ "0") →
      parseValue raw key sv = .error (boolParseMsg raw key) ∧
      (∃ a b, boolParseMsg raw key =
        a ++ (("Cannot parse \"" ++ (raw ++ "\" as boolean")) ++ b)) ∧
      (∃ c, boolParseMsg raw key = c ++ "Expected: true, false, 1, or 0")) := by
  refine ⟨?_, ?_, ?_⟩
  · intro h
    simp [parseValue, ht, h]
  · intro h
    rcases h with h | h <;> simp [parseValue, ht, h]
  · rintro ⟨h1, h2, h3, h4⟩
    refine ⟨by simp [parseValue, ht, h1, h2, h3, h4], ?_, ?_⟩
    · exact ⟨errTag ++ " ",
        (" for \"" ++ (key ++ "\". ")) ++ "Expected: true, false, 1, or 0",
        boolParseMsg_decomp raw key⟩
    · exact ⟨errTag ++ (" Cannot parse \"" ++ (raw ++ ("\" as boolean for \"" ++
        (key ++ "\". ")))), boolParseMsg_decomp2 raw key⟩

theorem boolean_coercion_witness :
    parseValue "TRUE" "D" ⟨"boolean", none, none, none⟩ = .ok (.bool true) ∧
    parseValue "1" "D" ⟨"boolean", none, none, none⟩ = .ok (.bool true) ∧
    parseValue "false" "D" ⟨"boolean", none, none, none⟩ = .ok (.bool false) ∧
    parseValue "0" "D" ⟨"boolean", none, none, none⟩ = .ok (.bool false) ∧
    parseValue "maybe" "D" ⟨"boolean", none, none, none⟩ =
      .error (boolParseMsg "maybe" "D") :=
  ⟨(boolean_coercion "TRUE" "D" ⟨"boolean", none, none, none⟩ rfl).1 (by decide),
   (boolean_coercion "1" "D" ⟨"boolean", none, none, none⟩ rfl).1 (by decide),
   (boolean_coercion "false" "D" ⟨"boolean", none, none, none⟩ rfl).2.1 (by decide),
   (boolean_coercion "0" "D" ⟨"boolean", none, none, none⟩ rfl).2.1 (by decide),
   ((boolean_coercion "maybe" "D" ⟨"boolean", none, none, none⟩ rfl).2.2
     (by decide)).1⟩

/-- C10: a nonempty whitespace-only raw value on a number field counts as set
(only the exact empty string is unset): the default — whatever it is — is
ignored, and coercion succeeds with the number 0, since `Number` of a
whitespace-only string is 0. -/
theorem whitespace_number_zero (raw : String) (h1 : raw ≠ "")
    (h2 : ∀ c ∈ raw.data, isJsWhitespace c)
    (cfg : EnvConfigType) (env : String → Option String) (st : RunState)
    (key : String) (sv : SchemaValue)
    (ht : sv.type = "number") (hv : sv.validate = none) (he : env key = some raw) :
    processField cfg env st key sv =
      .ok ⟨setKey st.final key (.num (.finite 0)), st.errors,
           st.logEntries ++ [.success key (.num (.finite 0))]⟩ := by
  have hb := length_beq_zero_false raw h1
  have hn : jsStringToNumber raw = .finite 0 := jsStringToNumber_whitespace raw h2
  simp [processField, tryBody, he, hb, handleSet, ht, parseValue, hn, JsNum.isNaN,
    runValidator, hv]

theorem whitespace_number_zero_witness :
    processField {} (fun _ => some " ") initState "N"
        ⟨"number", some (.num (.finite 3000)), none, none⟩ =
      .ok ⟨setKey initState.final "N" (.num (.finite 0)), initState.errors,
           initState.logEntries ++ [.success "N" (.num (.finite 0))]⟩ :=
  whitespace_number_zero " " (by decide) (by decide) {} (fun _ => some " ")
    initState "N" ⟨"number", some (.num (.finite 3000)), none, none⟩ rfl rfl rfl

end EnvTypedGuard
